import Mathlib

/-!
Verification development for the workout session runtime in
`src/app/start-workout/[templateId].tsx`.

The React component keeps the session in `useState` bindings; here the
bindings are collected into an explicit `SessionState` record and every
event handler of the screen becomes a pure function on that record.
Inside one handler, functional `setX` updates are applied in order while
plain reads of `exercises` see the render-time snapshot, so each handler
is modelled as: queued updates applied sequentially, decisions taken from
the pre-call state.  JavaScript numbers are modelled as `Int` (rest
clocks, reps, weights — `parseFloat` values only pass through, no
arithmetic is done on them), `undefined`-able fields as `Option`, and
`Partial<ActiveSet>` patches as records of `Option (Option _)` (outer
`none` = field absent, inner value = the field's JS value, possibly
`undefined`).
-/

namespace CBB

/-- One set of a live workout, i.e. the component's `ActiveSet`
(`WorkoutSet` plus `id` and `completed`). -/
structure ActiveSet where
  id : Nat
  reps : Option Int
  weight : Option Int
  duration : Option Int
  restTime : Option Int
  completed : Bool
  notes : String
  deriving Repr, DecidableEq

/-- One exercise of a live workout, the component's `ActiveExercise`. -/
structure ActiveExercise where
  exerciseId : String
  exerciseName : String
  sets : List ActiveSet
  currentSetIndex : Nat
  notes : String
  deriving Repr, DecidableEq

/-- A `Partial<ActiveSet>` as passed to `completeSet`: each field may be
absent (outer `none`) or present with a possibly-`undefined` value.  The
source's trailing `completed: true` override makes a `completed` entry of
the patch irrelevant, so it is not carried. -/
structure SetPatch where
  id : Option Nat
  reps : Option (Option Int)
  weight : Option (Option Int)
  duration : Option (Option Int)
  restTime : Option (Option Int)
  notes : Option String
  deriving Repr, DecidableEq

/-- The value of `updatedSet.restTime` as a JS expression: `undefined`
when the field is absent. -/
def SetPatch.restTimeVal (p : SetPatch) : Option Int :=
  p.restTime.getD none

/-- The spread `{ ...old, ...patch, completed: true }` from `completeSet`. -/
def mergeSet (old : ActiveSet) (p : SetPatch) : ActiveSet :=
  { id := p.id.getD old.id
    reps := (p.reps.getD old.reps)
    weight := (p.weight.getD old.weight)
    duration := (p.duration.getD old.duration)
    restTime := (p.restTime.getD old.restTime)
    completed := true
    notes := p.notes.getD old.notes }

/-- JS `a || b` on possibly-`undefined` numbers: falls back when `a` is
`undefined` or `0` (both falsy); any other number, negatives included, is
truthy. -/
def jsOr (a b : Option Int) : Option Int :=
  match a with
  | some v => if v = 0 then b else some v
  | none => b

/-- JS truthiness-plus-positivity test `x && x > 0` on a possibly-
`undefined` number. -/
def restPos : Option Int → Bool
  | some v => decide (0 < v)
  | none => false

/-- The component's `useState` bindings gathered into one record.
`sessionCompleted` is `workoutSession.completed`. -/
structure SessionState where
  exercises : List ActiveExercise
  currentExerciseIndex : Nat
  isWorkoutStarted : Bool
  isPaused : Bool
  workoutTime : Nat
  restTime : Int
  isResting : Bool
  showRestTimer : Bool
  showFinishModal : Bool
  workoutNotes : String
  sessionCompleted : Bool
  deriving Repr, DecidableEq

/-- Apply `f` to the exercise at index `i`; out of bounds leaves the list
unchanged (the source would fault there; no claim reaches that case). -/
def updateExerciseAt (exs : List ActiveExercise) (i : Nat)
    (f : ActiveExercise → ActiveExercise) : List ActiveExercise :=
  match exs.get? i with
  | none => exs
  | some ex => exs.set i (f ex)

/-- Apply `f` to set `j` of an exercise; out of bounds leaves it unchanged. -/
def updateSetAt (ex : ActiveExercise) (j : Nat)
    (f : ActiveSet → ActiveSet) : ActiveExercise :=
  match ex.sets.get? j with
  | none => ex
  | some st => { ex with sets := ex.sets.set j (f st) }

/-- Snapshot read `exercises[i].sets[j].restTime`. -/
def storedRestTime (exs : List ActiveExercise) (i j : Nat) : Option Int :=
  match exs.get? i with
  | none => none
  | some ex =>
    match ex.sets.get? j with
    | none => none
    | some st => st.restTime

/-- Snapshot read `exercises[i].sets[j]`. -/
def getSet (s : SessionState) (i j : Nat) : Option ActiveSet :=
  match s.exercises.get? i with
  | none => none
  | some ex => ex.sets.get? j

/-- The effective rest duration computed at line 222:
`updatedSet.restTime || exercises[exerciseIndex].sets[setIndex].restTime`,
both read before any queued update lands. -/
def effRest (p : SetPatch) (exs : List ActiveExercise) (i j : Nat) : Option Int :=
  jsOr p.restTimeVal (storedRestTime exs i j)

/-- The `completeSet` handler (lines 210–245).  Queued updates are applied
in order; the rest-timer decision and the advancement decision read the
pre-call snapshot `s`. -/
def completeSet (i j : Nat) (p : SetPatch) (s : SessionState) : SessionState :=
  let s1 : SessionState :=
    { s with exercises :=
        updateExerciseAt s.exercises i (fun ex => updateSetAt ex j (fun st => mergeSet st p)) }
  let rts : Option Int := effRest p s.exercises i j
  let s2 : SessionState :=
    if restPos rts then
      { s1 with restTime := rts.getD 0, isResting := true, showRestTimer := true }
    else s1
  let snapSetsLen : Nat :=
    match s.exercises.get? i with
    | none => 0
    | some ex => ex.sets.length
  if j < snapSetsLen - 1 then
    { s2 with exercises :=
        updateExerciseAt s2.exercises i (fun ex => { ex with currentSetIndex := j + 1 }) }
  else if i < s.exercises.length - 1 then
    { s2 with currentExerciseIndex := i + 1 }
  else
    { s2 with showFinishModal := true }

/-- `startWorkout` (lines 197–200). -/
def startWorkout (s : SessionState) : SessionState :=
  { s with isWorkoutStarted := true, isPaused := false }

/-- `pauseWorkout` (lines 202–204). -/
def pauseWorkout (s : SessionState) : SessionState :=
  { s with isPaused := true }

/-- `resumeWorkout` (lines 206–208). -/
def resumeWorkout (s : SessionState) : SessionState :=
  { s with isPaused := false }

/-- `skipRestTimer` (lines 247–251). -/
def skipRestTimer (s : SessionState) : SessionState :=
  { s with isResting := false, showRestTimer := false, restTime := 0 }

/-- The rest modal's `+30s` button (line 571). -/
def addRestTime (s : SessionState) : SessionState :=
  { s with restTime := s.restTime + 30 }

/-- The Previous Exercise button (line 512): `Math.max(0, i - 1)` is Nat
truncated subtraction. -/
def navPrev (s : SessionState) : SessionState :=
  { s with currentExerciseIndex := s.currentExerciseIndex - 1 }

/-- The Next Exercise button (line 528). -/
def navNext (s : SessionState) : SessionState :=
  { s with currentExerciseIndex := min (s.exercises.length - 1) (s.currentExerciseIndex + 1) }

/-- One second of the workout interval (lines 78–93): installed, hence
incrementing, exactly when `isWorkoutStarted && !isPaused`. -/
def workoutTick (s : SessionState) : SessionState :=
  if s.isWorkoutStarted && !s.isPaused then
    { s with workoutTime := s.workoutTime + 1 }
  else s

/-- One second of the rest interval (lines 95–117): installed exactly when
`isResting && restTime > 0`; a tick from `restTime <= 1` lands on 0 and
clears `isResting` and `showRestTimer`. -/
def restTick (s : SessionState) : SessionState :=
  if s.isResting && decide (0 < s.restTime) then
    if s.restTime ≤ 1 then
      { s with restTime := 0, isResting := false, showRestTimer := false }
    else
      { s with restTime := s.restTime - 1 }
  else s

/-- One second of wall-clock time: both independent intervals fire. -/
def tickSecond (s : SessionState) : SessionState :=
  restTick (workoutTick s)

/-- Reps edit of `renderSetInput` (lines 331–335): acts on the current
exercise, value is `parseInt(value) || 0`. -/
def editSetReps (j : Nat) (v : Int) (s : SessionState) : SessionState :=
  let f : ActiveSet → ActiveSet := fun st => { st with reps := some v }
  { s with exercises := updateExerciseAt s.exercises s.currentExerciseIndex (fun ex => updateSetAt ex j f) }

/-- Weight edit of `renderSetInput` (lines 348–352). -/
def editSetWeight (j : Nat) (v : Int) (s : SessionState) : SessionState :=
  let f : ActiveSet → ActiveSet := fun st => { st with weight := some v }
  { s with exercises := updateExerciseAt s.exercises s.currentExerciseIndex (fun ex => updateSetAt ex j f) }

/-- Rest edit of `renderSetInput` (lines 365–369). -/
def editSetRest (j : Nat) (v : Int) (s : SessionState) : SessionState :=
  let f : ActiveSet → ActiveSet := fun st => { st with restTime := some v }
  { s with exercises := updateExerciseAt s.exercises s.currentExerciseIndex (fun ex => updateSetAt ex j f) }

/-- Exercise-notes edit (lines 492–496). -/
def editExerciseNotes (t : String) (s : SessionState) : SessionState :=
  { s with exercises := updateExerciseAt s.exercises s.currentExerciseIndex (fun ex => { ex with notes := t }) }

/-- Workout-notes edit (line 616). -/
def editWorkoutNotes (t : String) (s : SessionState) : SessionState :=
  { s with workoutNotes := t }

/-- Closing the rest modal (line 557). -/
def closeRestModal (s : SessionState) : SessionState :=
  { s with showRestTimer := false }

/-- The Finish Workout button (line 543). -/
def openFinishModal (s : SessionState) : SessionState :=
  { s with showFinishModal := true }

/-- Closing the finish modal (lines 586, 590). -/
def closeFinishModal (s : SessionState) : SessionState :=
  { s with showFinishModal := false }

/-- One planned set configuration of a template entry. -/
structure SetConfig where
  reps : Option Int
  weight : Option Int
  duration : Option Int
  restTime : Option Int
  deriving Repr, DecidableEq

/-- One template entry as read by `initializeExercises`: `exercise?.id`,
`exercise?.name` and `notes` may be `undefined`; `sets_config` is `none`
when it is not an array. -/
structure TemplateExercise where
  exerciseId : Option String
  exerciseName : Option String
  sets_config : Option (List SetConfig)
  notes : Option String
  deriving Repr, DecidableEq

/-- Builds one `ActiveSet` per configuration; `generateId` is modelled as
drawing consecutive ids from a seed. -/
def mkActiveSets (seed : Nat) : List SetConfig → List ActiveSet
  | [] => []
  | c :: rest =>
      { id := seed, reps := c.reps, weight := c.weight, duration := c.duration,
        restTime := c.restTime, completed := false, notes := "" } :: mkActiveSets (seed + 1) rest

/-- The `template.exercises.map` body of `initializeExercises`. -/
def mkActiveExercises (seed : Nat) : List TemplateExercise → List ActiveExercise
  | [] => []
  | te :: rest =>
      let cfgs := te.sets_config.getD []
      { exerciseId := te.exerciseId.getD "",
        exerciseName := te.exerciseName.getD "Unknown",
        sets := mkActiveSets seed cfgs,
        currentSetIndex := 0,
        notes := te.notes.getD "" } :: mkActiveExercises (seed + cfgs.length) rest

/-- `initializeExercises` (lines 159–181): `none` models a non-array
`template.exercises`; a missing or empty list yields the empty state. -/
def initializeExercises : Option (List TemplateExercise) → List ActiveExercise
  | none => []
  | some [] => []
  | some tes => mkActiveExercises 0 tes

/-- One exercise of the finalized record built by `finishWorkout`:
`exerciseName` and `currentSetIndex` are stripped. -/
structure RecordedExercise where
  exerciseId : String
  sets : List ActiveSet
  notes : String
  deriving Repr, DecidableEq

/-- The `WorkoutSession` value kept in state and finalized on finish.
Timestamps are abstract naturals. -/
structure WorkoutSession where
  id : Nat
  clientId : String
  templateId : String
  date : String
  startTime : Nat
  endTime : Option Nat
  exercises : List RecordedExercise
  notes : String
  completed : Bool
  synced : Bool
  deriving Repr, DecidableEq

/-- `initializeWorkoutSession` (lines 183–195). -/
def initializeWorkoutSession (sessionId : Nat) (templateId date : String)
    (now : Nat) : WorkoutSession :=
  { id := sessionId, clientId := "current-user", templateId := templateId,
    date := date, startTime := now, endTime := none, exercises := [],
    notes := "", completed := false, synced := false }

/-- The field-by-field copy of a set in `finishWorkout` (lines 262–270). -/
def recordSet (st : ActiveSet) : ActiveSet :=
  { id := st.id, reps := st.reps, weight := st.weight, duration := st.duration,
    restTime := st.restTime, completed := st.completed, notes := st.notes }

/-- The exercise projection in `finishWorkout` (lines 260–272). -/
def recordExercise (ex : ActiveExercise) : RecordedExercise :=
  { exerciseId := ex.exerciseId, sets := ex.sets.map recordSet, notes := ex.notes }

/-- `finishWorkout` (lines 253–288): builds `completedSession` from the
stored session, the live exercises and the workout notes. -/
def finishWorkout (sess : WorkoutSession) (exs : List ActiveExercise)
    (workoutNotes : String) (now : Nat) : WorkoutSession :=
  { sess with
    endTime := some now,
    exercises := exs.map recordExercise,
    notes := workoutNotes,
    completed := true }

/-- Whether every set of every exercise is completed — the session's
actual completion state. -/
def allSetsCompleted (exs : List ActiveExercise) : Bool :=
  exs.all (fun ex => ex.sets.all (·.completed))

/-- The screen's state right after `loadTemplate` ran `initializeExercises`
and `initializeWorkoutSession`: all `useState` initial values. -/
def initState (tes : Option (List TemplateExercise)) : SessionState :=
  { exercises := initializeExercises tes,
    currentExerciseIndex := 0,
    isWorkoutStarted := false,
    isPaused := false,
    workoutTime := 0,
    restTime := 0,
    isResting := false,
    showRestTimer := false,
    showFinishModal := false,
    workoutNotes := "",
    sessionCompleted := false }

/-- One user- or timer-driven transition of the screen. -/
inductive Step : SessionState → SessionState → Prop where
  | start (s : SessionState) : Step s (startWorkout s)
  | pause (s : SessionState) : Step s (pauseWorkout s)
  | resume (s : SessionState) : Step s (resumeWorkout s)
  | complete (i j : Nat) (p : SetPatch) (s : SessionState) : Step s (completeSet i j p s)
  | skipRest (s : SessionState) : Step s (skipRestTimer s)
  | addRest (s : SessionState) : Step s (addRestTime s)
  | prev (s : SessionState) : Step s (navPrev s)
  | next (s : SessionState) : Step s (navNext s)
  | wTick (s : SessionState) : Step s (workoutTick s)
  | rTick (s : SessionState) : Step s (restTick s)
  | editReps (j : Nat) (v : Int) (s : SessionState) : Step s (editSetReps j v s)
  | editWeight (j : Nat) (v : Int) (s : SessionState) : Step s (editSetWeight j v s)
  | editRest (j : Nat) (v : Int) (s : SessionState) : Step s (editSetRest j v s)
  | editExNotes (t : String) (s : SessionState) : Step s (editExerciseNotes t s)
  | editNotes (t : String) (s : SessionState) : Step s (editWorkoutNotes t s)
  | closeRest (s : SessionState) : Step s (closeRestModal s)
  | openFinish (s : SessionState) : Step s (openFinishModal s)
  | closeFinish (s : SessionState) : Step s (closeFinishModal s)

/-- States reachable from some loaded template's initial state. -/
def Reachable (s : SessionState) : Prop :=
  ∃ tes, Relation.ReflTransGen Step (initState tes) s

/-- The enabled-condition of the complete button in `renderSetInput`
(lines 378–393): rendered only when the set is not completed, disabled
unless it is the exercise's current set. -/
def completeButtonPressable (ex : ActiveExercise) (j : Nat) (st : ActiveSet) : Bool :=
  !st.completed && (ex.currentSetIndex == j)

/-! ### Concrete example sessions used by counterexamples and witnesses -/

/-- A patch carrying no field at all. -/
def emptyPatch : SetPatch :=
  { id := none, reps := none, weight := none, duration := none,
    restTime := none, notes := none }

/-- A planned set: 10 reps at weight 50, 30 seconds rest. -/
def cfg30 : SetConfig :=
  { reps := some 10, weight := some 50, duration := none, restTime := some 30 }

/-- A template entry with a single planned set. -/
def egE1 : TemplateExercise :=
  { exerciseId := some "e1", exerciseName := some "Bench",
    sets_config := some [cfg30], notes := none }

/-- A template entry with two planned sets. -/
def egE2 : TemplateExercise :=
  { exerciseId := some "e1", exerciseName := some "Bench",
    sets_config := some [cfg30, cfg30], notes := none }

/-- A template of one exercise with a single planned set. -/
def egT1 : Option (List TemplateExercise) := some [egE1]

/-- A template of one exercise with two planned sets. -/
def egT2 : Option (List TemplateExercise) := some [egE2]

/-- A patch that records values and carries `restTime: 30`. -/
def p30 : SetPatch :=
  { id := none, reps := some (some 10), weight := some (some 50),
    duration := none, restTime := some (some 30), notes := none }

/-- A stored session as produced by `initializeWorkoutSession`. -/
def egSession : WorkoutSession := initializeWorkoutSession 1 "t1" "2025-01-01" 0

/-- Live exercises of `egT1`, nothing completed yet. -/
def egIncompleteExs : List ActiveExercise := initializeExercises egT1

/-- A template entry with zero planned sets. -/
def zeroSetEntry : TemplateExercise :=
  { exerciseId := some "e1", exerciseName := some "Bench",
    sets_config := some [], notes := none }

/-- A second template entry with zero planned sets. -/
def zeroSetEntryB : TemplateExercise :=
  { exerciseId := some "e2", exerciseName := some "Row",
    sets_config := some [], notes := none }

/-! ### Basic lemmas about the list helpers -/

theorem mkActiveSets_length (seed : Nat) (cfgs : List SetConfig) :
    (mkActiveSets seed cfgs).length = cfgs.length := by
  induction cfgs generalizing seed with
  | nil => rfl
  | cons c rest ih => simp [mkActiveSets, ih]

theorem mkActiveSets_completed (seed : Nat) (cfgs : List SetConfig) :
    ∀ st ∈ mkActiveSets seed cfgs, st.completed = false := by
  induction cfgs generalizing seed with
  | nil => intro st h; cases h
  | cons c rest ih =>
      intro st h
      rcases List.mem_cons.mp h with h | h
      · rw [h]
      · exact ih (seed + 1) st h

theorem mkActiveExercises_length (seed : Nat) (tes : List TemplateExercise) :
    (mkActiveExercises seed tes).length = tes.length := by
  induction tes generalizing seed with
  | nil => rfl
  | cons te rest ih => simp [mkActiveExercises, ih]

theorem updateExerciseAt_get?_self (exs : List ActiveExercise) (i : Nat)
    (f : ActiveExercise → ActiveExercise) (ex : ActiveExercise)
    (h : exs.get? i = some ex) :
    (updateExerciseAt exs i f).get? i = some (f ex) := by
  have hlt : i < exs.length := by
    by_contra hge
    rw [List.get?_eq_none.mpr (Nat.le_of_not_lt hge)] at h
    exact Option.noConfusion h
  unfold updateExerciseAt
  rw [h]
  exact List.get?_set_eq_of_lt _ hlt

theorem updateSetAt_sets_get?_self (ex : ActiveExercise) (j : Nat)
    (f : ActiveSet → ActiveSet) (st : ActiveSet)
    (h : ex.sets.get? j = some st) :
    (updateSetAt ex j f).sets.get? j = some (f st) := by
  have hlt : j < ex.sets.length := by
    by_contra hge
    rw [List.get?_eq_none.mpr (Nat.le_of_not_lt hge)] at h
    exact Option.noConfusion h
  unfold updateSetAt
  rw [h]
  exact List.get?_set_eq_of_lt _ hlt

/-! ### Frame lemmas for the two timer functions -/

theorem workoutTick_isWorkoutStarted (s : SessionState) :
    (workoutTick s).isWorkoutStarted = s.isWorkoutStarted := by
  unfold workoutTick; split <;> rfl

theorem workoutTick_isPaused (s : SessionState) :
    (workoutTick s).isPaused = s.isPaused := by
  unfold workoutTick; split <;> rfl

theorem restTick_workoutTime (s : SessionState) :
    (restTick s).workoutTime = s.workoutTime := by
  unfold restTick
  split
  · split <;> rfl
  · rfl

theorem restTick_isWorkoutStarted (s : SessionState) :
    (restTick s).isWorkoutStarted = s.isWorkoutStarted := by
  unfold restTick
  split
  · split <;> rfl
  · rfl

theorem workoutTick_workoutTime_frozen (s : SessionState)
    (h : ¬(s.isWorkoutStarted = true ∧ s.isPaused = false)) :
    (workoutTick s).workoutTime = s.workoutTime := by
  unfold workoutTick
  split
  · rename_i hc
    exact absurd ⟨(Bool.and_eq_true _ _).mp hc |>.1,
      by simpa using ((Bool.and_eq_true _ _).mp hc).2⟩ h
  · rfl

theorem tickSecond_not_started (s : SessionState) (h : s.isWorkoutStarted = false) :
    (tickSecond s).workoutTime = s.workoutTime ∧
    (tickSecond s).isWorkoutStarted = false := by
  constructor
  · unfold tickSecond
    rw [restTick_workoutTime]
    exact workoutTick_workoutTime_frozen s (by simp [h])
  · unfold tickSecond
    rw [restTick_isWorkoutStarted, workoutTick_isWorkoutStarted, h]

/-! ### Claim theorems -/

/-- C9: the Previous/Next exercise actions change only the top-level
exercise cursor: the exercise list — hence every per-exercise
`currentSetIndex`, every set's completion flag and recorded values — is
unchanged, as are the timers, flags and notes. -/
theorem nav_changes_only_cursor (s : SessionState) :
    (navPrev s).exercises = s.exercises ∧ (navNext s).exercises = s.exercises ∧
    (navPrev s).isWorkoutStarted = s.isWorkoutStarted ∧
    (navNext s).isWorkoutStarted = s.isWorkoutStarted ∧
    (navPrev s).isPaused = s.isPaused ∧ (navNext s).isPaused = s.isPaused ∧
    (navPrev s).workoutTime = s.workoutTime ∧ (navNext s).workoutTime = s.workoutTime ∧
    (navPrev s).restTime = s.restTime ∧ (navNext s).restTime = s.restTime ∧
    (navPrev s).isResting = s.isResting ∧ (navNext s).isResting = s.isResting ∧
    (navPrev s).sessionCompleted = s.sessionCompleted ∧
    (navNext s).sessionCompleted = s.sessionCompleted ∧
    (navPrev s).workoutNotes = s.workoutNotes ∧ (navNext s).workoutNotes = s.workoutNotes :=
  ⟨rfl, rfl, rfl, rfl, rfl, rfl, rfl, rfl, rfl, rfl, rfl, rfl, rfl, rfl, rfl, rfl⟩

/-- C7: any number of clock ticks while the session is not started leaves
the workout clock unchanged, and a single tick advances it exactly when
`isWorkoutStarted && !isPaused`. -/
theorem workout_clock_gated :
    (∀ (s : SessionState) (d : Nat), s.isWorkoutStarted = false →
        (tickSecond^[d] s).workoutTime = s.workoutTime) ∧
    (∀ s : SessionState,
        (tickSecond s).workoutTime =
          if s.isWorkoutStarted && !s.isPaused then s.workoutTime + 1
          else s.workoutTime) := by
  constructor
  · intro s d h
    induction d generalizing s with
    | zero => rfl
    | succ n ih =>
        rw [Function.iterate_succ_apply]
        rw [ih (tickSecond s) (tickSecond_not_started s h).2]
        exact (tickSecond_not_started s h).1
  · intro s
    unfold tickSecond
    rw [restTick_workoutTime]
    unfold workoutTick
    split <;> rfl

/-- C7 witness: three ticks on a never-started state leave the clock at 0,
and one tick on it does not advance the clock. -/
theorem workout_clock_gated_witness :
    (tickSecond^[3] (initState egT1)).workoutTime = (initState egT1).workoutTime ∧
    (tickSecond (initState egT1)).workoutTime =
      (if (initState egT1).isWorkoutStarted && !(initState egT1).isPaused
       then (initState egT1).workoutTime + 1 else (initState egT1).workoutTime) :=
  ⟨workout_clock_gated.1 (initState egT1) 3 rfl, workout_clock_gated.2 (initState egT1)⟩

/-- C1 counterexample: on a session whose actual completion state is
incomplete (stored `completed` is `false` and no set is completed),
`finishWorkout` still emits a record with `completed = true`, so the
record's flag does not equal the session's actual state. -/
theorem finish_counterexample :
    (finishWorkout egSession egIncompleteExs "" 100).completed = true ∧
    egSession.completed = false ∧
    allSetsCompleted egIncompleteExs = false := by
  refine ⟨rfl, rfl, ?_⟩
  rfl

/-- C1 amended: `finishWorkout` unconditionally sets `completed := true`
on the produced record, regardless of the session's actual completion
state — a force-finish with incomplete sets is still recorded as
completed. -/
theorem finish_forces_completed (sess : WorkoutSession) (exs : List ActiveExercise)
    (workoutNotes : String) (now : Nat) :
    (finishWorkout sess exs workoutNotes now).completed = true := rfl

/-- C5 counterexample: a template whose single entry has zero planned sets
does not make `initializeExercises` fail — it yields one runnable
`ActiveExercise` with an empty set list, not the empty/error state. -/
theorem init_zero_sets_counterexample :
    (initializeExercises (some [zeroSetEntry])).length = 1 ∧
    initializeExercises (some [zeroSetEntry]) ≠ [] := by
  refine ⟨rfl, ?_⟩
  intro h
  exact List.noConfusion h

/-- C5 amended: `initializeExercises` returns the empty state exactly when
the template's exercise list is missing or empty; an entry with zero
planned sets is kept as an exercise (with an empty set list), producing
one output entry per template entry. -/
theorem init_empty_iff_no_exercises :
    initializeExercises none = [] ∧ initializeExercises (some []) = [] ∧
    (∀ tes : List TemplateExercise, tes ≠ [] →
        (initializeExercises (some tes)).length = tes.length) := by
  refine ⟨rfl, rfl, ?_⟩
  intro tes h
  match tes, h with
  | te :: rest, _ =>
      show (mkActiveExercises 0 (te :: rest)).length = (te :: rest).length
      exact mkActiveExercises_length 0 (te :: rest)

/-- C5 amended witness: a one-entry template with zero planned sets
initializes to a one-exercise state. -/
theorem init_empty_iff_no_exercises_witness :
    (initializeExercises (some [zeroSetEntryB])).length = [zeroSetEntryB].length :=
  init_empty_iff_no_exercises.2.2 [zeroSetEntryB] (by intro h; exact List.noConfusion h)

/-- Indexed description of `mkActiveExercises`: entry `i` of the output is
built from entry `i` of the template, with one fresh set per configuration,
cursor 0 and nothing completed. -/
theorem mkActiveExercises_get? (tes : List TemplateExercise) (seed i : Nat)
    (te : TemplateExercise) (h : tes.get? i = some te) :
    ∃ ex, (mkActiveExercises seed tes).get? i = some ex ∧
      ex.exerciseId = te.exerciseId.getD "" ∧
      ex.exerciseName = te.exerciseName.getD "Unknown" ∧
      ex.sets.length = (te.sets_config.getD []).length ∧
      ex.currentSetIndex = 0 ∧
      ∀ st ∈ ex.sets, st.completed = false := by
  induction tes generalizing seed i with
  | nil => cases h
  | cons a rest ih =>
      cases i with
      | zero =>
          have ha : a = te := by
            rw [List.get?_cons_zero] at h
            exact Option.some.inj h
          subst ha
          refine ⟨_, rfl, rfl, rfl, ?_, rfl, ?_⟩
          · exact mkActiveSets_length seed _
          · exact mkActiveSets_completed seed _
      | succ n =>
          rw [List.get?_cons_succ] at h
          exact ih (seed + (a.sets_config.getD []).length) n h

/-- C6: for a valid (non-empty) template, `initializeExercises` yields one
`ActiveExercise` per template entry, in template order; entry `i` carries
exactly the `i`-th entry's planned set count, `currentSetIndex = 0`, and
every set starts with `completed = false`. -/
theorem initialize_shape (tes : List TemplateExercise) (h : tes ≠ []) :
    (initializeExercises (some tes)).length = tes.length ∧
    ∀ i te, tes.get? i = some te →
      ∃ ex, (initializeExercises (some tes)).get? i = some ex ∧
        ex.exerciseId = te.exerciseId.getD "" ∧
        ex.exerciseName = te.exerciseName.getD "Unknown" ∧
        ex.sets.length = (te.sets_config.getD []).length ∧
        ex.currentSetIndex = 0 ∧
        ∀ st ∈ ex.sets, st.completed = false := by
  match tes, h with
  | te0 :: rest, _ =>
      exact ⟨mkActiveExercises_length 0 (te0 :: rest),
        fun i te hi => mkActiveExercises_get? (te0 :: rest) 0 i te hi⟩

/-- C6 witness: the two-set single-exercise template initializes to the
described shape. -/
theorem initialize_shape_witness :
    (initializeExercises (some [egE2])).length = [egE2].length ∧
    ∀ i te, [egE2].get? i = some te →
      ∃ ex, (initializeExercises (some [egE2])).get? i = some ex ∧
        ex.exerciseId = te.exerciseId.getD "" ∧
        ex.exerciseName = te.exerciseName.getD "Unknown" ∧
        ex.sets.length = (te.sets_config.getD []).length ∧
        ex.currentSetIndex = 0 ∧
        ∀ st ∈ ex.sets, st.completed = false :=
  initialize_shape [egE2] (by intro h; exact List.noConfusion h)

/-! ### The rest fields of `completeSet` -/

theorem completeSet_isResting (i j : Nat) (p : SetPatch) (s : SessionState) :
    (completeSet i j p s).isResting =
      (if restPos (effRest p s.exercises i j) then true else s.isResting) := by
  simp only [completeSet]
  split_ifs <;> rfl

theorem completeSet_restTime (i j : Nat) (p : SetPatch) (s : SessionState) :
    (completeSet i j p s).restTime =
      (if restPos (effRest p s.exercises i j) then (effRest p s.exercises i j).getD 0
       else s.restTime) := by
  simp only [completeSet]
  split_ifs <;> rfl

theorem completeSet_showRestTimer (i j : Nat) (p : SetPatch) (s : SessionState) :
    (completeSet i j p s).showRestTimer =
      (if restPos (effRest p s.exercises i j) then true else s.showRestTimer) := by
  simp only [completeSet]
  split_ifs <;> rfl

/-- C10: when the supplied values carry no `restTime` or a zero one, the
effective rest duration is the set's stored planned `restTime` (read from
the pre-call snapshot), and a rest interval starts — `isResting = true`
with `restTime` loaded — exactly when that effective value is strictly
positive; otherwise the rest fields are untouched. -/
theorem completeSet_rest_fallback (s : SessionState) (i j : Nat) (p : SetPatch)
    (hp : p.restTimeVal = none ∨ p.restTimeVal = some 0) :
    effRest p s.exercises i j = storedRestTime s.exercises i j ∧
    (restPos (storedRestTime s.exercises i j) = true →
      (completeSet i j p s).isResting = true ∧
      (completeSet i j p s).restTime = (storedRestTime s.exercises i j).getD 0) ∧
    (restPos (storedRestTime s.exercises i j) = false →
      (completeSet i j p s).isResting = s.isResting ∧
      (completeSet i j p s).restTime = s.restTime) := by
  have heq : effRest p s.exercises i j = storedRestTime s.exercises i j := by
    unfold effRest jsOr
    rcases hp with h | h <;> rw [h]
    simp
  refine ⟨heq, ?_, ?_⟩
  · intro hpos
    rw [completeSet_isResting, completeSet_restTime, heq, hpos]
    exact ⟨rfl, rfl⟩
  · intro hneg
    rw [completeSet_isResting, completeSet_restTime, heq, hneg]
    exact ⟨rfl, rfl⟩

/-- Fallback values used to read concrete entries out of example states. -/
def dummySet : ActiveSet :=
  { id := 0, reps := none, weight := none, duration := none, restTime := none,
    completed := false, notes := "" }

/-- Fallback exercise for reading concrete entries out of example states. -/
def dummyEx : ActiveExercise :=
  { exerciseId := "", exerciseName := "", sets := [], currentSetIndex := 0, notes := "" }

/-- The state after completing set 0 of the two-set template and skipping
the resulting rest interval. -/
def c2s1 : SessionState := skipRestTimer (completeSet 0 0 p30 (initState egT2))

/-- The single exercise of `c2s1`. -/
def c2ex : ActiveExercise := (c2s1.exercises.get? 0).getD dummyEx

/-- The completed first set of `c2s1`. -/
def c2st : ActiveSet := (c2ex.sets.get? 0).getD dummySet

/-- The single exercise of the initialized one-set template. -/
def e1ex : ActiveExercise := ((initState egT1).exercises.get? 0).getD dummyEx

/-- The single planned set of `e1ex`. -/
def e1st : ActiveSet := (e1ex.sets.get? 0).getD dummySet

/-- The single exercise of the initialized two-set template. -/
def e2ex : ActiveExercise := ((initState egT2).exercises.get? 0).getD dummyEx

/-- The second planned set of `e2ex`. -/
def e2st : ActiveSet := (e2ex.sets.get? 1).getD dummySet

/-- Completing any in-bounds set replaces it by the merge of its old value
with the supplied patch — whatever branch the rest timer and the
advancement logic take afterwards. -/
theorem completeSet_getSet (s : SessionState) (i j : Nat) (p : SetPatch)
    (ex : ActiveExercise) (st : ActiveSet)
    (h1 : s.exercises.get? i = some ex) (h2 : ex.sets.get? j = some st) :
    getSet (completeSet i j p s) i j = some (mergeSet st p) := by
  have hu1 : (updateExerciseAt s.exercises i
        (fun e => updateSetAt e j (fun t => mergeSet t p))).get? i
      = some (updateSetAt ex j (fun t => mergeSet t p)) :=
    updateExerciseAt_get?_self _ _ _ _ h1
  have hu2 : (updateSetAt ex j (fun t => mergeSet t p)).sets.get? j
      = some (mergeSet st p) :=
    updateSetAt_sets_get?_self _ _ _ _ h2
  have hu3 : (updateExerciseAt (updateExerciseAt s.exercises i
        (fun e => updateSetAt e j (fun t => mergeSet t p))) i
        (fun e => { e with currentSetIndex := j + 1 })).get? i
      = some { updateSetAt ex j (fun t => mergeSet t p) with currentSetIndex := j + 1 } :=
    updateExerciseAt_get?_self _ _ _ _ hu1
  simp only [List.get?_eq_getElem?] at hu1 hu2 hu3
  simp only [getSet, completeSet]
  split_ifs <;> simp [hu1, hu2, hu3]

/-- C3 counterexample: on a one-exercise one-set session, completing the
final set of the final exercise marks the set completed and opens the
finish modal, but the session's `completed` flag stays `false` — it does
not become true without an explicit finish. -/
theorem complete_last_set_counterexample :
    (completeSet 0 0 emptyPatch (initState egT1)).sessionCompleted = false ∧
    (completeSet 0 0 emptyPatch (initState egT1)).showFinishModal = true ∧
    (getSet (completeSet 0 0 emptyPatch (initState egT1)) 0 0).map
        (fun st => st.completed) = some true := by
  refine ⟨?_, ?_, ?_⟩ <;> decide

/-- C3 amended: completing the final set of the final exercise opens the
finish modal (`showFinishModal = true`), prompting the user to finalize;
the session's `completed` flag is left unchanged and becomes true only
through `finishWorkout`. -/
theorem complete_last_set_opens_finish (s : SessionState) (i j : Nat) (p : SetPatch)
    (ex : ActiveExercise) (h1 : s.exercises.get? i = some ex)
    (h2 : i + 1 = s.exercises.length) (h3 : j + 1 = ex.sets.length) :
    (completeSet i j p s).showFinishModal = true ∧
    (completeSet i j p s).sessionCompleted = s.sessionCompleted := by
  simp only [completeSet, h1]
  split_ifs <;> first
    | omega
    | exact ⟨rfl, rfl⟩

/-- C3 amended witness: the outcome at the one-exercise one-set session. -/
theorem complete_last_set_opens_finish_witness :
    (completeSet 0 0 emptyPatch (initState egT1)).showFinishModal = true ∧
    (completeSet 0 0 emptyPatch (initState egT1)).sessionCompleted =
      (initState egT1).sessionCompleted :=
  complete_last_set_opens_finish (initState egT1) 0 0 emptyPatch e1ex
    (by decide) (by decide) (by decide)

/-- C4 counterexample: on the freshly initialized two-set exercise the
cursor is 0, yet `completeSet` on set 1 does not fail — it marks set 1
completed. -/
theorem complete_noncurrent_counterexample :
    ((initState egT2).exercises.get? 0).map (fun ex => ex.currentSetIndex) = some 0 ∧
    (getSet (completeSet 0 1 emptyPatch (initState egT2)) 0 1).map
        (fun st => st.completed) = some true := by
  refine ⟨?_, ?_⟩ <;> decide

/-- C4 amended: `completeSet` itself performs no cursor check — calling it
with `setIndex ≠ currentSetIndex` still merges the values and marks the
set completed.  The `NotCurrentSet` gating lives only in the UI: the
complete button of `renderSetInput` is pressable only when the set is not
completed and is the exercise's current set. -/
theorem completeSet_no_cursor_check (s : SessionState) (i j : Nat) (p : SetPatch)
    (ex : ActiveExercise) (st : ActiveSet)
    (h1 : s.exercises.get? i = some ex) (h2 : ex.sets.get? j = some st)
    (_h3 : j ≠ ex.currentSetIndex) :
    getSet (completeSet i j p s) i j = some (mergeSet st p) ∧
    (mergeSet st p).completed = true ∧
    (∀ ex' j' st', completeButtonPressable ex' j' st' = true → j' = ex'.currentSetIndex) := by
  refine ⟨completeSet_getSet s i j p ex st h1 h2, rfl, ?_⟩
  intro ex' j' st' h
  have hand := (Bool.and_eq_true _ _).mp h
  have heq : ex'.currentSetIndex = j' := by simpa using hand.2
  exact heq.symm

/-- C4 amended witness: the non-current second set of the fresh two-set
exercise is completed anyway. -/
theorem completeSet_no_cursor_check_witness :
    getSet (completeSet 0 1 emptyPatch (initState egT2)) 0 1 =
        some (mergeSet e2st emptyPatch) ∧
    (mergeSet e2st emptyPatch).completed = true ∧
    (∀ ex' j' st', completeButtonPressable ex' j' st' = true → j' = ex'.currentSetIndex) :=
  completeSet_no_cursor_check (initState egT2) 0 1 emptyPatch e2ex e2st
    (by decide) (by decide) (by decide)

/-- C2 counterexample: after a successful `completeSet` on (0,0) followed
by `skipRestTimer`, the set is completed and `isResting` is false; the
second `completeSet` on the same (0,0) does not reject — it restarts the
rest interval, so the session state is changed. -/
theorem complete_twice_counterexample :
    (getSet c2s1 0 0).map (fun st => st.completed) = some true ∧
    c2s1.isResting = false ∧
    (completeSet 0 0 p30 c2s1).isResting = true := by
  refine ⟨?_, ?_, ?_⟩ <;> decide

/-- C2 amended: `completeSet` performs no already-completed check — a
second call on the same indices succeeds again, re-merging the supplied
values (the set stays completed) and, whenever the effective rest time is
positive, starting a fresh rest interval, so the session state is not left
unchanged. -/
theorem completeSet_no_completed_check (s : SessionState) (i j : Nat) (p : SetPatch)
    (ex : ActiveExercise) (st : ActiveSet)
    (h1 : s.exercises.get? i = some ex) (h2 : ex.sets.get? j = some st)
    (_h3 : st.completed = true) :
    getSet (completeSet i j p s) i j = some (mergeSet st p) ∧
    (mergeSet st p).completed = true ∧
    (restPos (effRest p s.exercises i j) = true →
      (completeSet i j p s).isResting = true) := by
  refine ⟨completeSet_getSet s i j p ex st h1 h2, rfl, ?_⟩
  intro h
  rw [completeSet_isResting, h]
  rfl

/-- C2 amended witness: the second call on the completed set (0,0). -/
theorem completeSet_no_completed_check_witness :
    getSet (completeSet 0 0 p30 c2s1) 0 0 = some (mergeSet c2st p30) ∧
    (mergeSet c2st p30).completed = true ∧
    (restPos (effRest p30 c2s1.exercises 0 0) = true →
      (completeSet 0 0 p30 c2s1).isResting = true) :=
  completeSet_no_completed_check c2s1 0 0 p30 c2ex c2st
    (by decide) (by decide) (by decide)

/-- C10 witness: completing set 0 of the one-set template with an empty
patch falls back to the stored 30-second rest and starts a rest interval. -/
theorem completeSet_rest_fallback_witness :
    effRest emptyPatch (initState egT1).exercises 0 0 =
        storedRestTime (initState egT1).exercises 0 0 ∧
    (restPos (storedRestTime (initState egT1).exercises 0 0) = true →
      (completeSet 0 0 emptyPatch (initState egT1)).isResting = true ∧
      (completeSet 0 0 emptyPatch (initState egT1)).restTime =
        (storedRestTime (initState egT1).exercises 0 0).getD 0) ∧
    (restPos (storedRestTime (initState egT1).exercises 0 0) = false →
      (completeSet 0 0 emptyPatch (initState egT1)).isResting = (initState egT1).isResting ∧
      (completeSet 0 0 emptyPatch (initState egT1)).restTime = (initState egT1).restTime) :=
  completeSet_rest_fallback (initState egT1) 0 0 emptyPatch (Or.inl rfl)

/-! ### The rest-clock invariant (C8) -/

theorem workoutTick_restTime (s : SessionState) :
    (workoutTick s).restTime = s.restTime := by
  unfold workoutTick; split <;> rfl

theorem workoutTick_isResting (s : SessionState) :
    (workoutTick s).isResting = s.isResting := by
  unfold workoutTick; split <;> rfl

/-- The inductive invariant: the rest clock is never negative, and while
resting it is strictly positive. -/
def RestInv (s : SessionState) : Prop :=
  0 ≤ s.restTime ∧ (s.isResting = true → 0 < s.restTime)

theorem restPos_spec (o : Option Int) (h : restPos o = true) : 0 < o.getD 0 := by
  cases o with
  | none => cases h
  | some v => simpa [restPos] using h

theorem restInv_init (tes : Option (List TemplateExercise)) :
    RestInv (initState tes) :=
  ⟨le_refl 0, fun hr => absurd hr Bool.false_ne_true⟩

theorem restInv_step {s s' : SessionState} (hs : Step s s') (h : RestInv s) :
    RestInv s' := by
  cases hs with
  | start s => exact h
  | pause s => exact h
  | resume s => exact h
  | prev s => exact h
  | next s => exact h
  | editReps j v s => exact h
  | editWeight j v s => exact h
  | editRest j v s => exact h
  | editExNotes t s => exact h
  | editNotes t s => exact h
  | closeRest s => exact h
  | openFinish s => exact h
  | closeFinish s => exact h
  | skipRest s => exact ⟨le_refl 0, fun hr => absurd hr Bool.false_ne_true⟩
  | addRest s =>
      refine ⟨?_, fun hr => ?_⟩
      · show (0 : Int) ≤ s.restTime + 30
        have := h.1; omega
      · have hr' : s.isResting = true := hr
        have := h.2 hr'
        show (0 : Int) < s.restTime + 30
        omega
  | wTick s =>
      refine ⟨?_, fun hr => ?_⟩
      · rw [workoutTick_restTime]; exact h.1
      · rw [workoutTick_isResting] at hr
        rw [workoutTick_restTime]; exact h.2 hr
  | rTick s =>
      unfold restTick
      split_ifs with hg hle
      · exact ⟨le_refl 0, fun hr => absurd hr Bool.false_ne_true⟩
      · simp only [Bool.and_eq_true, decide_eq_true_eq] at hg
        refine ⟨?_, fun _ => ?_⟩
        · show (0 : Int) ≤ s.restTime - 1
          omega
        · show (0 : Int) < s.restTime - 1
          omega
      · exact h
  | complete i j p s =>
      refine ⟨?_, fun hr => ?_⟩
      · rw [completeSet_restTime]
        split_ifs with hR
        · exact le_of_lt (restPos_spec _ hR)
        · exact h.1
      · rw [completeSet_isResting] at hr
        rw [completeSet_restTime]
        split_ifs at hr ⊢ with hR
        · exact restPos_spec _ hR
        · exact h.2 hr

theorem restInv_reachable (s : SessionState) (h : Reachable s) : RestInv s := by
  obtain ⟨tes, hr⟩ := h
  induction hr with
  | refl => exact restInv_init tes
  | tail _ hbc ih => exact restInv_step hbc ih

/-- C8: in every reachable state, `resting = true` implies the rest clock
is non-negative, and a rest tick that lands the clock on 0 also clears the
`resting` flag — `resting` cannot survive a zero rest clock reached by
ticking. -/
theorem rest_clock_invariant (s : SessionState) (h : Reachable s) :
    (s.isResting = true → 0 ≤ s.restTime) ∧
    ((restTick s).restTime = 0 → (restTick s).isResting = false) := by
  have hi := restInv_reachable s h
  refine ⟨fun hr => le_of_lt (hi.2 hr), ?_⟩
  unfold restTick
  split_ifs with hg hle
  · intro _; rfl
  · intro h0
    have h0' : s.restTime - 1 = 0 := h0
    exact absurd h0' (by omega)
  · intro h0
    have h0' : s.restTime = 0 := h0
    cases hb : s.isResting with
    | false => rfl
    | true => exact absurd (hi.2 hb) (by rw [h0']; exact lt_irrefl 0)

/-- C8 witness: the invariant holds at the freshly initialized state,
which is reachable by the empty trace. -/
theorem rest_clock_invariant_witness :
    ((initState egT1).isResting = true → 0 ≤ (initState egT1).restTime) ∧
    ((restTick (initState egT1)).restTime = 0 →
      (restTick (initState egT1)).isResting = false) :=
  rest_clock_invariant (initState egT1) ⟨egT1, Relation.ReflTransGen.refl⟩

end CBB
